import Mathlib

/-!
Shallow embedding of the BLE Device Session Manager of the tiresias-desktop
repository: the host-side BluetoothModule (packages/main/src/modules/BluetoothModule.ts)
and the renderer-side BluetoothService mirror. JS Map objects are modelled as
association lists preserving insertion order, with get/set/clear helpers matching
Map semantics (set overwrites in place). Driver callbacks (noble connect,
discoverServices, disconnect) are modelled by explicit outcome parameters; each
IPC handler becomes a pure function from states and outcomes to the new state,
the list of emitted deviceUpdated payloads, and the response object.
-/

/-- Connection state of a device, the state enum of the BluetoothDevice interface. -/
inductive ConnState
  | disconnected
  | connecting
  | connected
  | disconnecting
deriving DecidableEq, Repr

/-- Adapter states reported by the noble driver. -/
inductive AdapterState
  | unknown
  | resetting
  | unsupported
  | unauthorized
  | poweredOff
  | poweredOn
deriving DecidableEq, Repr

/-- The string form of an adapter state, as interpolated into messages. -/
def AdapterState.toName : AdapterState → String
  | AdapterState.unknown => "unknown"
  | AdapterState.resetting => "resetting"
  | AdapterState.unsupported => "unsupported"
  | AdapterState.unauthorized => "unauthorized"
  | AdapterState.poweredOff => "poweredOff"
  | AdapterState.poweredOn => "poweredOn"

/-- The BluetoothDevice interface of BluetoothModule.ts. -/
structure BluetoothDevice where
  id : String
  name : String
  address : String
  rssi : Int
  state : ConnState
  services : List String
deriving DecidableEq, Repr

/-- The BluetoothResponse interface: result object of every IPC handler. -/
structure BluetoothResponse where
  success : Bool
  message : Option String
  error : Option String
deriving DecidableEq, Repr

/-- JS Map.get on an insertion-ordered association list. -/
def mapGet {α : Type} : List (String × α) → String → Option α
  | [], _ => none
  | (k, v) :: rest, key => if k = key then some v else mapGet rest key

/-- JS Map.set on an insertion-ordered association list: overwrites in place,
otherwise appends at the end. -/
def mapSet {α : Type} : List (String × α) → String → α → List (String × α)
  | [], key, v => [(key, v)]
  | (k, w) :: rest, key, v =>
    if k = key then (key, v) :: rest else (k, w) :: mapSet rest key v

/-- Advertisement data carried by a noble peripheral. localName and serviceUuids
may be absent; an empty localName is falsy in JS, so it is kept as a distinct value. -/
structure Advertisement where
  localName : Option String
  serviceUuids : Option (List String)
deriving DecidableEq, Repr

/-- A noble peripheral as seen by the discover callback. -/
structure Peripheral where
  id : String
  address : String
  rssi : Int
  advertisement : Advertisement
deriving DecidableEq, Repr

/-- The state of the noble driver: adapter state, the peripheral handle table,
and whether driver-level scanning is active. -/
structure NobleState where
  state : AdapterState
  peripherals : List (String × Peripheral)
  scanning : Bool
deriving DecidableEq, Repr

/-- The mutable state of the host BluetoothModule: the devices Map (Host
Registry) and the isScanning flag. -/
structure ModuleState where
  devices : List (String × BluetoothDevice)
  isScanning : Bool
deriving DecidableEq, Repr

/-- The device record built by the discover callback from a peripheral:
name falls back when localName is absent or empty (JS falsiness of the
String), state is set to disconnected, services default to the advertised
service UUID list. -/
def deviceOfPeripheral (p : Peripheral) : BluetoothDevice :=
  { id := p.id
    name := match p.advertisement.localName with
      | some s => if s = "" then "Unknown Device" else s
      | none => "Unknown Device"
    address := p.address
    rssi := p.rssi
    state := ConnState.disconnected
    services := p.advertisement.serviceUuids.getD [] }

/-- The discover event handler: stores the freshly built device in the devices
Map (unconditionally, by Map.set) and returns the deviceDiscovered payload. -/
def onDiscover (st : ModuleState) (p : Peripheral) : ModuleState × BluetoothDevice :=
  let device := deviceOfPeripheral p
  ({ st with devices := mapSet st.devices p.id device }, device)

/-- startScanning: only acts when the adapter is poweredOn; starts driver
scanning and sets the isScanning flag. -/
def startScanning (noble : NobleState) (st : ModuleState) : NobleState × ModuleState :=
  if noble.state = AdapterState.poweredOn then
    ({ noble with scanning := true }, { st with isScanning := true })
  else
    (noble, st)

/-- stopScanning: stops driver scanning and clears the isScanning flag. -/
def stopScanning (noble : NobleState) (st : ModuleState) : NobleState × ModuleState :=
  ({ noble with scanning := false }, { st with isScanning := false })

/-- The stateChange event handler: the driver state has changed to newState;
if poweredOn and the module was scanning, resume scanning; if anything other
than poweredOn, stop scanning. -/
def onStateChange (noble : NobleState) (st : ModuleState) (newState : AdapterState) :
    NobleState × ModuleState :=
  let noble1 := { noble with state := newState }
  if newState = AdapterState.poweredOn then
    if st.isScanning then startScanning noble1 st else (noble1, st)
  else
    stopScanning noble1 st

/-- The startScan IPC handler: refuses with an error naming the adapter state
unless poweredOn; otherwise clears the devices Map, starts scanning and reports
success. -/
def handleStartScan (noble : NobleState) (st : ModuleState) :
    NobleState × ModuleState × BluetoothResponse :=
  if noble.state ≠ AdapterState.poweredOn then
    (noble, st,
      { success := false
        message := none
        error := some ("Bluetooth adapter not ready (state: " ++ noble.state.toName ++
          "). Please ensure Bluetooth is enabled on your system.") })
  else
    let st1 := { st with devices := [] }
    let r := startScanning noble st1
    (r.1, r.2, { success := true, message := some "Scanning started", error := none })

/-- The getDevices IPC handler: a snapshot of the values of the devices Map. -/
def getDevices (st : ModuleState) : List BluetoothDevice :=
  st.devices.map Prod.snd

/-- The outcome of the awaited driver steps inside the connect handler: the
connect callback may fail, then the discoverServices callback may fail, else
it reports the discovered service UUIDs. -/
inductive ConnectOutcome
  | connectError (msg : String)
  | discoverError (msg : String)
  | ok (serviceUuids : List String)
deriving DecidableEq, Repr

/-- The catch block of the connect handler: refetch the device by id; when
present set its state to disconnected and emit a deviceUpdated event; return
the error result carrying the message of the rejection. -/
def connectFailure (st : ModuleState) (deviceId : String) (msg : String) :
    ModuleState × List BluetoothDevice × BluetoothResponse :=
  match mapGet st.devices deviceId with
  | some d =>
    let d2 := { d with state := ConnState.disconnected }
    ({ st with devices := mapSet st.devices deviceId d2 }, [d2],
      { success := false, message := none, error := some msg })
  | none =>
    (st, [], { success := false, message := none, error := some msg })

/-- The connect IPC handler. Unknown peripheral id: error result, no events.
Otherwise: if the device is in the Map, set state connecting and emit an
update event; await connect and service discovery; on success set state
connected, store the service UUIDs, emit an update event; a rejection of
either step lands in the catch block (connectFailure). -/
def handleConnect (noble : NobleState) (st : ModuleState) (deviceId : String)
    (outcome : ConnectOutcome) : ModuleState × List BluetoothDevice × BluetoothResponse :=
  match mapGet noble.peripherals deviceId with
  | none =>
    (st, [],
      { success := false, message := none
        error := some ("Device " ++ deviceId ++ " not found") })
  | some _ =>
    match mapGet st.devices deviceId with
    | none =>
      match outcome with
      | ConnectOutcome.ok _ =>
        (st, [],
          { success := true, message := some ("Connected to device " ++ deviceId)
            error := none })
      | ConnectOutcome.connectError msg => connectFailure st deviceId msg
      | ConnectOutcome.discoverError msg => connectFailure st deviceId msg
    | some d0 =>
      let d1 := { d0 with state := ConnState.connecting }
      let st1 := { st with devices := mapSet st.devices deviceId d1 }
      match outcome with
      | ConnectOutcome.ok uuids =>
        let d2 := { d1 with state := ConnState.connected, services := uuids }
        ({ st1 with devices := mapSet st1.devices deviceId d2 }, [d1, d2],
          { success := true, message := some ("Connected to device " ++ deviceId)
            error := none })
      | ConnectOutcome.connectError msg =>
        let r := connectFailure st1 deviceId msg
        (r.1, d1 :: r.2.1, r.2.2)
      | ConnectOutcome.discoverError msg =>
        let r := connectFailure st1 deviceId msg
        (r.1, d1 :: r.2.1, r.2.2)

/-- The disconnect IPC handler; the Option String outcome is the rejection
message of the driver disconnect callback, none on success. Unknown peripheral
id: error result, no events. Otherwise: if the device is in the Map, set state
disconnecting and emit an update event; await the driver disconnect; on success
set state disconnected (on the device captured before the await) and emit an
update event; a rejection lands in the catch block, which only returns the
error result. -/
def handleDisconnect (noble : NobleState) (st : ModuleState) (deviceId : String)
    (outcome : Option String) : ModuleState × List BluetoothDevice × BluetoothResponse :=
  match mapGet noble.peripherals deviceId with
  | none =>
    (st, [],
      { success := false, message := none
        error := some ("Device " ++ deviceId ++ " not found") })
  | some _ =>
    match mapGet st.devices deviceId with
    | none =>
      match outcome with
      | some msg => (st, [], { success := false, message := none, error := some msg })
      | none =>
        (st, [],
          { success := true, message := some ("Disconnected from device " ++ deviceId)
            error := none })
    | some d0 =>
      let d1 := { d0 with state := ConnState.disconnecting }
      let st1 := { st with devices := mapSet st.devices deviceId d1 }
      match outcome with
      | some msg => (st1, [d1], { success := false, message := none, error := some msg })
      | none =>
        let d2 := { d1 with state := ConnState.disconnected }
        ({ st1 with devices := mapSet st1.devices deviceId d2 }, [d1, d2],
          { success := true, message := some ("Disconnected from device " ++ deviceId)
            error := none })

/-- The state of the renderer-side BluetoothService (UI Mirror): the mirrored
devices Map and the scanning flag. -/
structure MirrorState where
  devices : List (String × BluetoothDevice)
  isScanning : Bool
deriving DecidableEq, Repr

/-- The forEach body of the mirror getDevices merge: for one polled device,
preserve the locally tracked connection state when the id is already present,
then store the record in the mirror Map. -/
def mergePolledDevice (m : MirrorState) (device : BluetoothDevice) : MirrorState :=
  let d1 :=
    match mapGet m.devices device.id with
    | some existingDevice => { device with state := existingDevice.state }
    | none => device
  { m with devices := mapSet m.devices device.id d1 }

/-- The mirror getDevices poll: merge every device reported by the host into
the mirror Map, then return the snapshot of mirror values. -/
def mirrorGetDevices (m : MirrorState) (mainProcessDevices : List BluetoothDevice) :
    MirrorState × List BluetoothDevice :=
  let m1 := mainProcessDevices.foldl mergePolledDevice m
  (m1, m1.devices.map Prod.snd)

/-- The mirror startScan: clears the mirror Map and sets its scanning flag,
then awaits the IPC invoke. The invoke outcome is a rejection (Except.error)
or a resolution with the host response object (Except.ok); the host handler
catches its own exceptions and always returns a response object, so a host
refusal arrives as a resolution. Only a rejection reaches the catch block,
which clears the flag and rethrows. -/
def mirrorStartScan (m : MirrorState) (invokeOutcome : Except String BluetoothResponse) :
    MirrorState × Except String BluetoothResponse :=
  let m1 := { m with devices := ([] : List (String × BluetoothDevice)), isScanning := true }
  match invokeOutcome with
  | Except.error e => ({ m1 with isScanning := false }, Except.error e)
  | Except.ok r => (m1, Except.ok r)

theorem mapGet_mapSet_self {α : Type} (m : List (String × α)) (k : String) (v : α) :
    mapGet (mapSet m k v) k = some v := by
  induction m with
  | nil => simp [mapSet, mapGet]
  | cons hd tl ih =>
    obtain ⟨k1, v1⟩ := hd
    by_cases h : k1 = k
    · simp [mapSet, mapGet, h]
    · simp [mapSet, mapGet, h, ih]

/-- A concrete connected device used by counterexamples and witnesses. -/
def exDev : BluetoothDevice :=
  { id := "d1", name := "Aid", address := "aa:bb", rssi := -60
    state := ConnState.connected, services := [] }

/-- A concrete peripheral advertising the id of exDev. -/
def exPeriph : Peripheral :=
  { id := "d1", address := "aa:bb", rssi := -72
    advertisement := { localName := some "Aid", serviceUuids := some ["180a"] } }

/-- A concrete module state holding exDev. -/
def exHost : ModuleState := { devices := [("d1", exDev)], isScanning := false }

/-- A concrete noble state, poweredOn, with exPeriph in the handle table. -/
def exNoble : NobleState :=
  { state := AdapterState.poweredOn, peripherals := [("d1", exPeriph)], scanning := false }

/-- A concrete noble state with an active scan, adapter poweredOn. -/
def exScanningNoble : NobleState :=
  { state := AdapterState.poweredOn, peripherals := [], scanning := true }

/-- A concrete module state with the scanning flag set. -/
def exScanningHost : ModuleState := { devices := [], isScanning := true }

/-- Claim C1, counterexample: in exHost the record for d1 is in state connected,
yet after a discovery callback for a d1 advertisement the record state is
disconnected — the advertisement did reset the state of an existing record. -/
theorem onDiscover_resets_existing_state_cex :
    (mapGet exHost.devices "d1").map BluetoothDevice.state = some ConnState.connected ∧
    (mapGet (onDiscover exHost exPeriph).1.devices "d1").map BluetoothDevice.state =
      some ConnState.disconnected ∧
    ConnState.connected ≠ ConnState.disconnected := by
  refine ⟨rfl, ?_, by decide⟩
  rfl

/-- Claim C1, amended: the discovery callback unconditionally overwrites the
record at the peripheral id with a freshly built device whose state is
disconnected, whether or not the id was already present — so a discovery
callback firing during an in-flight connect does downgrade connecting or
connected to disconnected. -/
theorem onDiscover_overwrites_record (st : ModuleState) (p : Peripheral) :
    mapGet (onDiscover st p).1.devices p.id = some (deviceOfPeripheral p) ∧
    (deviceOfPeripheral p).state = ConnState.disconnected ∧
    (onDiscover st p).2 = deviceOfPeripheral p := by
  refine ⟨?_, rfl, rfl⟩
  simp [onDiscover, mapGet_mapSet_self]

/-- Claim C2, counterexample: scanning is active and the adapter flaps
poweredOff then poweredOn; after the flap the module is not scanning (flag
false, driver scanning false) — scanning was not resumed, because stopScanning
cleared the isScanning flag during the poweredOff transition. -/
theorem stateFlap_no_resume_cex :
    (let r1 := onStateChange exScanningNoble exScanningHost AdapterState.poweredOff
     let r2 := onStateChange r1.1 r1.2 AdapterState.poweredOn
     r2.2.isScanning = false ∧ r2.1.scanning = false) := by
  decide

/-- Claim C2, amended: when the adapter reports a state other than poweredOn,
any active scan is stopped and the isScanning flag is cleared; because the
flag is not preserved across the flap, a later poweredOn transition does not
resume scanning: after the flap both the flag and driver scanning are false. -/
theorem stateFlap_stops_and_does_not_resume (noble : NobleState) (st : ModuleState)
    (s : AdapterState) (hs : s ≠ AdapterState.poweredOn) :
    ((onStateChange noble st s).2.isScanning = false ∧
      (onStateChange noble st s).1.scanning = false) ∧
    ((onStateChange (onStateChange noble st s).1 (onStateChange noble st s).2
        AdapterState.poweredOn).2.isScanning = false ∧
      (onStateChange (onStateChange noble st s).1 (onStateChange noble st s).2
        AdapterState.poweredOn).1.scanning = false) := by
  simp [onStateChange, stopScanning, hs]

/-- Claim C2 witness: instantiation of the amended theorem at a concrete
poweredOff flap. -/
theorem stateFlap_stops_and_does_not_resume_witness :
    ((onStateChange exNoble exHost AdapterState.poweredOff).2.isScanning = false ∧
      (onStateChange exNoble exHost AdapterState.poweredOff).1.scanning = false) ∧
    ((onStateChange (onStateChange exNoble exHost AdapterState.poweredOff).1
        (onStateChange exNoble exHost AdapterState.poweredOff).2
        AdapterState.poweredOn).2.isScanning = false ∧
      (onStateChange (onStateChange exNoble exHost AdapterState.poweredOff).1
        (onStateChange exNoble exHost AdapterState.poweredOff).2
        AdapterState.poweredOn).1.scanning = false) :=
  stateFlap_stops_and_does_not_resume exNoble exHost AdapterState.poweredOff (by decide)

/-- Claim C3, counterexample: a disconnect on the known device d1 whose driver
disconnect primitive fails leaves the record for d1 in state disconnecting
(not disconnected), emits only the disconnecting update event, and returns the
error result — so the device is left stuck in disconnecting. -/
theorem disconnect_failure_stuck_cex :
    (mapGet (handleDisconnect exNoble exHost "d1" (some "boom")).1.devices "d1").map
        BluetoothDevice.state = some ConnState.disconnecting ∧
    ConnState.disconnecting ≠ ConnState.disconnected ∧
    ((handleDisconnect exNoble exHost "d1" (some "boom")).2.1).map
        BluetoothDevice.state = [ConnState.disconnecting] ∧
    (handleDisconnect exNoble exHost "d1" (some "boom")).2.2 =
      { success := false, message := none, error := some "boom" } := by
  refine ⟨rfl, by decide, rfl, rfl⟩

/-- Claim C3, amended: when the driver disconnect primitive fails for a known
id whose device is in the Registry, the failure is surfaced to the caller as
an error result, but the device state is NOT reset: the record stays in
disconnecting, and the only deviceUpdated event emitted is the one for the
disconnecting transition. -/
theorem disconnect_failure_leaves_disconnecting (noble : NobleState) (st : ModuleState)
    (deviceId : String) (p : Peripheral) (d0 : BluetoothDevice) (msg : String)
    (hp : mapGet noble.peripherals deviceId = some p)
    (hd : mapGet st.devices deviceId = some d0) :
    handleDisconnect noble st deviceId (some msg) =
      ({ st with devices := (mapSet st.devices deviceId
          { d0 with state := ConnState.disconnecting }) },
        [{ d0 with state := ConnState.disconnecting }],
        { success := false, message := none, error := some msg }) := by
  simp [handleDisconnect, hp, hd]

/-- Claim C3 witness: instantiation of the amended theorem on the concrete
fixtures. -/
theorem disconnect_failure_leaves_disconnecting_witness :
    handleDisconnect exNoble exHost "d1" (some "boom") =
      ({ exHost with devices := (mapSet exHost.devices "d1"
          { exDev with state := ConnState.disconnecting }) },
        [{ exDev with state := ConnState.disconnecting }],
        { success := false, message := none, error := some "boom" }) :=
  disconnect_failure_leaves_disconnecting exNoble exHost "d1" exPeriph exDev "boom"
    (by decide) (by decide)

/-- Claim C4: a connect on a known id whose device is in the Registry, failing
at the driver connect step or at the service discovery step, resets the record
state to disconnected, leaves its services exactly as they were before the
call (in particular still empty when they were empty), emits the deviceUpdated
events ending with the disconnected record, and returns the error result
carrying the underlying failure message. -/
theorem connect_failure_resets_state (noble : NobleState) (st : ModuleState)
    (deviceId : String) (p : Peripheral) (d0 : BluetoothDevice) (msg : String)
    (outcome : ConnectOutcome)
    (hp : mapGet noble.peripherals deviceId = some p)
    (hd : mapGet st.devices deviceId = some d0)
    (hfail : outcome = ConnectOutcome.connectError msg ∨
      outcome = ConnectOutcome.discoverError msg) :
    mapGet (handleConnect noble st deviceId outcome).1.devices deviceId =
      some { d0 with state := ConnState.disconnected } ∧
    ({ d0 with state := ConnState.disconnected } : BluetoothDevice).services =
      d0.services ∧
    (d0.services = [] →
      ({ d0 with state := ConnState.disconnected } : BluetoothDevice).services = []) ∧
    (handleConnect noble st deviceId outcome).2.1 =
      [{ d0 with state := ConnState.connecting },
        { d0 with state := ConnState.disconnected }] ∧
    (handleConnect noble st deviceId outcome).2.2 =
      { success := false, message := none, error := some msg } := by
  rcases hfail with h | h <;>
    simp [h, handleConnect, hp, hd, connectFailure, mapGet_mapSet_self]

/-- Claim C4 witness: instantiation on the concrete fixtures with a service
discovery failure. -/
theorem connect_failure_resets_state_witness :
    mapGet (handleConnect exNoble exHost "d1"
        (ConnectOutcome.discoverError "gone")).1.devices "d1" =
      some { exDev with state := ConnState.disconnected } ∧
    ({ exDev with state := ConnState.disconnected } : BluetoothDevice).services =
      exDev.services ∧
    (exDev.services = [] →
      ({ exDev with state := ConnState.disconnected } : BluetoothDevice).services = []) ∧
    (handleConnect exNoble exHost "d1" (ConnectOutcome.discoverError "gone")).2.1 =
      [{ exDev with state := ConnState.connecting },
        { exDev with state := ConnState.disconnected }] ∧
    (handleConnect exNoble exHost "d1" (ConnectOutcome.discoverError "gone")).2.2 =
      { success := false, message := none, error := some "gone" } :=
  connect_failure_resets_state exNoble exHost "d1" exPeriph exDev "gone"
    (ConnectOutcome.discoverError "gone") (by decide) (by decide) (Or.inr rfl)

/-- A concrete noble state with the adapter poweredOff. -/
def exOffNoble : NobleState :=
  { state := AdapterState.poweredOff, peripherals := [("d1", exPeriph)], scanning := false }

/-- A concrete noble state with an empty peripheral handle table. -/
def exEmptyNoble : NobleState :=
  { state := AdapterState.poweredOn, peripherals := [], scanning := false }

/-- A concrete mirror state holding exDev, not scanning. -/
def exMirror : MirrorState := { devices := [("d1", exDev)], isScanning := false }

/-- Claim C5: one merge step of the mirror getDevices poll stores, under the
polled device id, the polled record with its state replaced by the locally
tracked state when the id was already present in the mirror, and the polled
record unchanged when the id is new. -/
theorem mirror_merge_preserves_local_state (m : MirrorState) (device : BluetoothDevice) :
    mapGet (mergePolledDevice m device).devices device.id =
      some (match mapGet m.devices device.id with
        | some existingDevice => { device with state := existingDevice.state }
        | none => device) := by
  cases h : mapGet m.devices device.id <;>
    simp [mergePolledDevice, h, mapGet_mapSet_self]

/-- Claim C6: startScan refuses with an error carrying the current adapter
state whenever the adapter is not poweredOn, and reports success with the
Scanning started message when it is. -/
theorem startScan_adapter_gate (noble : NobleState) (st : ModuleState) :
    (noble.state ≠ AdapterState.poweredOn →
      (handleStartScan noble st).2.2 =
        { success := false
          message := none
          error := some ("Bluetooth adapter not ready (state: " ++ noble.state.toName ++ "). Please ensure Bluetooth is enabled on your system.") }) ∧
    (noble.state = AdapterState.poweredOn →
      (handleStartScan noble st).2.2 =
        { success := true, message := some "Scanning started", error := none }) := by
  constructor <;> intro h <;> simp [handleStartScan, h]

/-- Claim C6 witness: both branches of the gate at concrete adapter states. -/
theorem startScan_adapter_gate_witness :
    (handleStartScan exOffNoble exHost).2.2 =
      { success := false
        message := none
        error := some ("Bluetooth adapter not ready (state: " ++ exOffNoble.state.toName ++ "). Please ensure Bluetooth is enabled on your system.") } ∧
    (handleStartScan exNoble exHost).2.2 =
      { success := true, message := some "Scanning started", error := none } :=
  ⟨(startScan_adapter_gate exOffNoble exHost).1 (by decide),
    (startScan_adapter_gate exNoble exHost).2 rfl⟩

/-- Claim C7: every successful startScan leaves the Host Registry empty: the
devices Map of the post state is empty, so getDevices returns the empty list
until devices are rediscovered. -/
theorem startScan_clears_registry (noble : NobleState) (st : ModuleState)
    (h : (handleStartScan noble st).2.2.success = true) :
    (handleStartScan noble st).2.1.devices = [] ∧
    getDevices (handleStartScan noble st).2.1 = [] := by
  by_cases hn : noble.state = AdapterState.poweredOn
  · simp [handleStartScan, hn, startScanning, getDevices]
  · exfalso
    simp [handleStartScan, hn] at h

/-- Claim C7 witness: a successful startScan on a registry holding exDev. -/
theorem startScan_clears_registry_witness :
    (handleStartScan exNoble exHost).2.1.devices = [] ∧
    getDevices (handleStartScan exNoble exHost).2.1 = [] :=
  startScan_clears_registry exNoble exHost (by decide)

/-- Claim C8: connect on an id absent from the peripheral handle table returns
the not-found error naming the id, emits no deviceUpdated event, and leaves
the module state untouched. -/
theorem connect_unknown_device (noble : NobleState) (st : ModuleState)
    (deviceId : String) (outcome : ConnectOutcome)
    (hp : mapGet noble.peripherals deviceId = none) :
    handleConnect noble st deviceId outcome =
      (st, [],
        { success := false
          message := none
          error := some ("Device " ++ deviceId ++ " not found") }) := by
  simp [handleConnect, hp]

/-- Claim C8 witness: connect on an empty handle table. -/
theorem connect_unknown_device_witness :
    handleConnect exEmptyNoble exHost "d9" (ConnectOutcome.ok []) =
      (exHost, [],
        { success := false
          message := none
          error := some ("Device " ++ "d9" ++ " not found") }) :=
  connect_unknown_device exEmptyNoble exHost "d9" (ConnectOutcome.ok []) (by decide)

/-- Claim C9: a startScan refused because the adapter is not poweredOn is
atomic: the noble state and the module state (registry and scanning flag) are
returned unchanged together with the failure response. -/
theorem startScan_failure_atomic (noble : NobleState) (st : ModuleState)
    (h : noble.state ≠ AdapterState.poweredOn) :
    (handleStartScan noble st).1 = noble ∧
    (handleStartScan noble st).2.1 = st ∧
    (handleStartScan noble st).2.2.success = false := by
  simp [handleStartScan, h]

/-- Claim C9 witness: refused startScan at a poweredOff adapter. -/
theorem startScan_failure_atomic_witness :
    (handleStartScan exOffNoble exHost).1 = exOffNoble ∧
    (handleStartScan exOffNoble exHost).2.1 = exHost ∧
    (handleStartScan exOffNoble exHost).2.2.success = false :=
  startScan_failure_atomic exOffNoble exHost (by decide)

/-- Claim C10: the mirror startScan clears the mirror registry and sets its
scanning flag before the host responds; a host refusal resolves the invoke
with a success false response rather than rejecting, so the catch block never
runs: the mirror registry stays empty and the mirror scanning flag stays true
even though the host never started scanning (its driver scanning and flag are
unchanged). -/
theorem mirror_startScan_refused (m : MirrorState) (noble : NobleState)
    (st : ModuleState) (h : noble.state ≠ AdapterState.poweredOn) :
    (mirrorStartScan m (Except.ok (handleStartScan noble st).2.2)).1.devices = [] ∧
    (mirrorStartScan m (Except.ok (handleStartScan noble st).2.2)).1.isScanning = true ∧
    (handleStartScan noble st).2.2.success = false ∧
    (handleStartScan noble st).1.scanning = noble.scanning ∧
    (handleStartScan noble st).2.1.isScanning = st.isScanning ∧
    (mirrorStartScan m (Except.ok (handleStartScan noble st).2.2)).2 =
      Except.ok (handleStartScan noble st).2.2 := by
  simp [mirrorStartScan, handleStartScan, h]

/-- Claim C10 witness: the mirror issues startScan against a poweredOff host. -/
theorem mirror_startScan_refused_witness :
    (mirrorStartScan exMirror (Except.ok (handleStartScan exOffNoble exHost).2.2)).1.devices = [] ∧
    (mirrorStartScan exMirror (Except.ok (handleStartScan exOffNoble exHost).2.2)).1.isScanning = true ∧
    (handleStartScan exOffNoble exHost).2.2.success = false ∧
    (handleStartScan exOffNoble exHost).1.scanning = exOffNoble.scanning ∧
    (handleStartScan exOffNoble exHost).2.1.isScanning = exHost.isScanning ∧
    (mirrorStartScan exMirror (Except.ok (handleStartScan exOffNoble exHost).2.2)).2 =
      Except.ok (handleStartScan exOffNoble exHost).2.2 :=
  mirror_startScan_refused exMirror exOffNoble exHost (by decide)
